import Mathlib

set_option maxRecDepth 2000

/-!
# Verification of the trainme workout model, wire codec, registry and orchestrator

Shallow embedding of the parts of the repository the claims are about:

* `src/garmin/models/workout.py` — the workout data model (`StepType`,
  `EndConditionType`, `EndCondition`, the `IntensityTarget` variants,
  `WorkoutStep`, `WorkoutSegment`) and their `to_dict` encoders;
* `src/garmin/models/run_workout.py` — `RunWorkout` and its `to_dict`;
* `src/garmin/workout_parser.py` — `WorkoutParser`, the wire decoder;
* `src/customclaudeclient/create_workout_tool.py` — the `create_workouts`
  tool handler and the construction path from tool payloads;
* `src/customclaudeclient/client.py` — the conversation orchestrator
  (`Claude.chat`, `Claude._should_continue_conversation`,
  `Claude.chat_complete`).

Modelling conventions:

* Python floats are modelled as `ℚ`; the decimal literals of the source
  (`0.44704`, `0.0`, …) are modelled by the exact rationals they denote.
  No claim depends on binary floating-point rounding.
* Python ints are modelled as `ℤ`.
* JSON-ish wire values (Python dicts produced by `to_dict` and consumed by
  the parser) are modelled by the inductive `JValue`; `dict.get` becomes
  `JValue.get?` / `JValue.getD`.
* Code that can raise (`KeyError`, pydantic `ValidationError`, …) is
  modelled in `Except PyError`.  pydantic's lax coercions are modelled for
  the value shapes that actually flow through the modelled paths
  (numbers to floats, fraction-free numbers to ints, booleans); other
  coercions (e.g. numeric strings) never arise in the claims and map to
  `PyError.validationError`.
-/

/-- Exceptions of the modelled Python code.  `keyError` covers `KeyError`
(and the analogous `AttributeError` raised by probing a non-dict),
`validationError` covers pydantic `ValidationError` / `ValueError` raised
by `model_post_init`. -/
inductive PyError where
  | keyError
  | validationError
deriving DecidableEq, Repr

instance instDecidableEqExcept {ε α : Type} [DecidableEq ε] [DecidableEq α] :
    DecidableEq (Except ε α)
  | .error a, .error b =>
      if h : a = b then .isTrue (congrArg Except.error h)
      else .isFalse (fun hc => h (Except.error.inj hc))
  | .error _, .ok _ => .isFalse (fun hc => Except.noConfusion hc)
  | .ok _, .error _ => .isFalse (fun hc => Except.noConfusion hc)
  | .ok a, .ok b =>
      if h : a = b then .isTrue (congrArg Except.ok h)
      else .isFalse (fun hc => h (Except.ok.inj hc))

/-- JSON-like values: the Python dict/list/scalar trees that `to_dict`
produces and `WorkoutParser` consumes.  Numbers are exact rationals. -/
inductive JValue where
  | null
  | bool (b : Bool)
  | num (q : ℚ)
  | str (s : String)
  | arr (xs : List JValue)
  | obj (fields : List (String × JValue))

/-- Python truthiness of a JSON value (`key or "other"` in the source
coerces falsy values — `None`, `""`, `0`, `False`, `[]`, `{}` — to the
default). -/
def JValue.falsy : JValue → Bool
  | .null => true
  | .bool b => !b
  | .num q => q == 0
  | .str s => s == ""
  | .arr xs => xs.isEmpty
  | .obj fs => fs.isEmpty

/-- `d.get(k)` on a Python dict: the stored value when the key is present,
`none` otherwise.  On a non-dict the source would raise; the modelled call
sites only reach this with dicts, so non-objects yield `none`. -/
def JValue.get? (v : JValue) (k : String) : Option JValue :=
  match v with
  | .obj fs => (fs.find? (fun p => p.1 == k)).map (·.2)
  | _ => none

/-- `d.get(k, default)`: the stored value (even `null`) when present,
otherwise the default. -/
def JValue.getD (v : JValue) (k : String) (d : JValue) : JValue :=
  (v.get? k).getD d

/-- `d.get(k)` combined with the source's `is not None` checks: JSON
`null` counts as missing. -/
def JValue.getNonNull (v : JValue) (k : String) : Option JValue :=
  match v.get? k with
  | some .null => none
  | o => o

/-- pydantic validation of an `int` field from a JSON number: accepted
exactly when the number has no fractional part. -/
def JValue.asInt : JValue → Option ℤ
  | .num q => if q.den == 1 then some q.num else none
  | _ => none

/-- pydantic validation of a `float` field from a JSON number. -/
def JValue.asRat : JValue → Option ℚ
  | .num q => some q
  | _ => none

/-- Python's `str.lower()` (character-wise, as all the compared text is
ASCII). -/
def strLower (s : String) : String :=
  ⟨s.toList.map Char.toLower⟩

/-- Python's `str.upper()`. -/
def strUpper (s : String) : String :=
  ⟨s.toList.map Char.toUpper⟩

/-- Python's `str.strip()`: whitespace removed from both ends. -/
def strStrip (s : String) : String :=
  ⟨((s.toList.dropWhile Char.isWhitespace).reverse.dropWhile
      Char.isWhitespace).reverse⟩

/-! ## The workout data model (`src/garmin/models/workout.py`) -/

/-- `StepType` enum: `(key, id, display_order)` triples
`warmup=("warmup",1,1)`, …, `other=("other",7,7)`. -/
inductive StepType where
  | warmup
  | cooldown
  | interval
  | recovery
  | rest
  | other
deriving DecidableEq, Repr

def StepType.key : StepType → String
  | .warmup => "warmup"
  | .cooldown => "cooldown"
  | .interval => "interval"
  | .recovery => "recovery"
  | .rest => "rest"
  | .other => "other"

def StepType.id : StepType → ℤ
  | .warmup => 1
  | .cooldown => 2
  | .interval => 3
  | .recovery => 4
  | .rest => 5
  | .other => 7

/-- `display_order` coincides with `id` for every `StepType` member. -/
def StepType.displayOrder (t : StepType) : ℤ := t.id

/-- `StepType.to_dict`. -/
def StepType.to_dict (t : StepType) : JValue :=
  .obj [("stepTypeId", .num t.id), ("stepTypeKey", .str t.key),
        ("displayOrder", .num t.displayOrder)]

/-- `EndConditionType` enum: `lap.button=1`, `time=2`, `distance=3`,
`calories=4` (display order equals the id). -/
inductive EndConditionType where
  | lap_button
  | time
  | distance
  | calories
deriving DecidableEq, Repr

def EndConditionType.key : EndConditionType → String
  | .lap_button => "lap.button"
  | .time => "time"
  | .distance => "distance"
  | .calories => "calories"

def EndConditionType.id : EndConditionType → ℤ
  | .lap_button => 1
  | .time => 2
  | .distance => 3
  | .calories => 4

/-- `EndConditionType.to_dict`. -/
def EndConditionType.to_dict (t : EndConditionType) : JValue :=
  .obj [("conditionTypeId", .num t.id), ("conditionTypeKey", .str t.key),
        ("displayOrder", .num t.id)]

/-- `EndCondition` pydantic model. -/
structure EndCondition where
  condition_type : EndConditionType
  value : ℚ
  displayable : Bool := true
deriving DecidableEq, Repr

/-- `EndCondition.to_dict`: the condition-type dict plus `displayable`.
(The value is emitted separately as `endConditionValue` by the step.) -/
def EndCondition.to_dict (e : EndCondition) : JValue :=
  .obj [("conditionTypeId", .num e.condition_type.id),
        ("conditionTypeKey", .str e.condition_type.key),
        ("displayOrder", .num e.condition_type.id),
        ("displayable", .bool e.displayable)]

/-- The `IntensityTarget` discriminated union:
`NoTarget`, `CadenceTarget`, `HeartRateZoneTarget`, `PaceZoneTarget`.
Cadence bounds are ints (steps/min), pace bounds are floats (m/s);
each optional `target_value_unit` defaults to `None`. -/
inductive IntensityTarget where
  | noTarget
  | cadence (lower_bound upper_bound : ℤ) (target_value_unit : Option String)
  | heartRateZone (zone_number : ℤ) (target_value_unit : Option String)
  | paceZone (lower_bound upper_bound : ℚ) (target_value_unit : Option String)
deriving DecidableEq, Repr

/-- `CadenceTarget(lower_bound=l, upper_bound=u)`: `model_post_init`
raises when `lower_bound >= upper_bound`, modelled as `none`. -/
def mkCadenceTarget (l u : ℤ) : Option IntensityTarget :=
  if l ≥ u then none else some (.cadence l u none)

/-- `HeartRateZoneTarget(zone_number=z)`: the source class has no
`model_post_init` and no field constraint beyond the description string,
so construction always succeeds. -/
def mkHeartRateZoneTarget (z : ℤ) : Option IntensityTarget :=
  some (.heartRateZone z none)

/-- `PaceZoneTarget(lower_bound=l, upper_bound=u)`: `model_post_init`
raises when `lower_bound < upper_bound` (pace is stored as speed in m/s,
the faster bound is the numerically larger `lower_bound`). -/
def mkPaceZoneTarget (l u : ℚ) : Option IntensityTarget :=
  if l < u then none else some (.paceZone l u none)

/-- `to_target_dict` of each variant: fixed ids and keys
(`no.target=1`, `cadence=3`, `heart.rate.zone=4`, `pace.zone=6`). -/
def IntensityTarget.to_target_dict : IntensityTarget → JValue
  | .noTarget =>
      .obj [("workoutTargetTypeId", .num 1),
            ("workoutTargetTypeKey", .str "no.target"), ("displayOrder", .num 1)]
  | .cadence _ _ _ =>
      .obj [("workoutTargetTypeId", .num 3),
            ("workoutTargetTypeKey", .str "cadence"), ("displayOrder", .num 3)]
  | .heartRateZone _ _ =>
      .obj [("workoutTargetTypeId", .num 4),
            ("workoutTargetTypeKey", .str "heart.rate.zone"), ("displayOrder", .num 4)]
  | .paceZone _ _ _ =>
      .obj [("workoutTargetTypeId", .num 6),
            ("workoutTargetTypeKey", .str "pace.zone"), ("displayOrder", .num 6)]

/-- The duck-typed attribute probe `getattr(intensity, 'lower_bound', None)`
used by `WorkoutStep.to_dict`: `NoTarget` and `HeartRateZoneTarget` do not
have the attribute. -/
def IntensityTarget.lowerBoundAttr : IntensityTarget → Option JValue
  | .cadence l _ _ => some (.num l)
  | .paceZone l _ _ => some (.num l)
  | _ => none

/-- `getattr(intensity, 'upper_bound', None)`. -/
def IntensityTarget.upperBoundAttr : IntensityTarget → Option JValue
  | .cadence _ u _ => some (.num u)
  | .paceZone _ u _ => some (.num u)
  | _ => none

/-- `getattr(intensity, 'target_value_unit', None)`. -/
def IntensityTarget.targetValueUnitAttr : IntensityTarget → Option JValue
  | .cadence _ _ (some s) => some (.str s)
  | .heartRateZone _ (some s) => some (.str s)
  | .paceZone _ _ (some s) => some (.str s)
  | _ => none

/-- `getattr(intensity, 'zone_number', None)`. -/
def IntensityTarget.zoneNumberAttr : IntensityTarget → Option JValue
  | .heartRateZone z _ => some (.num z)
  | _ => none

/-- `WorkoutStep` pydantic model. -/
structure WorkoutStep where
  step_order : ℤ
  step_type : StepType
  end_condition : EndCondition
  intensity : IntensityTarget
deriving DecidableEq, Repr

/-- Emit an optional wire field: present attributes produce one entry,
absent ones produce nothing (omission, not null-emission). -/
def optField (k : String) : Option JValue → List (String × JValue)
  | some v => [(k, v)]
  | none => []

/-- `WorkoutStep.to_dict`. -/
def WorkoutStep.to_dict (s : WorkoutStep) : JValue :=
  .obj ([("stepOrder", .num s.step_order),
         ("stepType", s.step_type.to_dict),
         ("type", .str "ExecutableStepDTO"),
         ("endCondition", s.end_condition.to_dict),
         ("endConditionValue", .num s.end_condition.value),
         ("targetType", s.intensity.to_target_dict),
         ("preferredEndConditionUnit", .null),
         ("endConditionCompare", .null),
         ("stepAudioNote", .null)]
        ++ optField "targetValueOne" s.intensity.lowerBoundAttr
        ++ optField "targetValueTwo" s.intensity.upperBoundAttr
        ++ optField "targetValueUnit" s.intensity.targetValueUnitAttr
        ++ optField "zoneNumber" s.intensity.zoneNumberAttr)

/-- `WorkoutSegment` pydantic model (`sport_type` is always running in the
modelled code paths, so it is not carried as data). -/
structure WorkoutSegment where
  segment_order : ℤ
  workout_steps : List WorkoutStep
deriving DecidableEq, Repr

/-- `SportType.RUNNING.to_dict()`. -/
def sportTypeRunningDict : JValue :=
  .obj [("sportTypeId", .num 1), ("sportTypeKey", .str "running"),
        ("displayOrder", .num 1)]

/-- `WorkoutSegment.to_dict`: each step dict additionally gets
`stepId = step_order` (server-mirrored field). -/
def WorkoutSegment.to_dict (seg : WorkoutSegment) : JValue :=
  .obj [("segmentOrder", .num seg.segment_order),
        ("sportType", sportTypeRunningDict),
        ("workoutSteps",
          .arr (seg.workout_steps.map (fun st =>
            match st.to_dict with
            | .obj fs => .obj (fs ++ [("stepId", .num st.step_order)])
            | v => v)))]

/-! ## `RunWorkout` (`src/garmin/models/run_workout.py`) -/

/-- `RunWorkout`.  `workout_name` and `workout_segments` are the tracked
payload; the remaining fields keep their source defaults in every modelled
code path (`sub_sport_type=None`, default `estimated_distance_unit`,
`avg_training_speed=0.0`, `estimate_type=None`, `is_wheelchair=False`).
`training_plan_id` is set by the decoder (`parse_workout`) and not emitted
by `to_dict`. -/
structure RunWorkout where
  workout_name : String
  workout_segments : List WorkoutSegment
  training_plan_id : Option String := none
  avg_training_speed : ℚ := 0
  is_wheelchair : Bool := false
deriving DecidableEq, Repr

/-- `RunWorkout.to_dict`. -/
def RunWorkout.to_dict (w : RunWorkout) : JValue :=
  .obj [("sportType", sportTypeRunningDict),
        ("subSportType", .null),
        ("workoutName", .str w.workout_name),
        ("estimatedDistanceUnit", .obj [("unitKey", .null)]),
        ("workoutSegments", .arr (w.workout_segments.map WorkoutSegment.to_dict)),
        ("avgTrainingSpeed", .num w.avg_training_speed),
        ("estimatedDurationInSecs", .num 0),
        ("estimatedDistanceInMeters", .num 0),
        ("estimateType", .null),
        ("isWheelchair", .bool w.is_wheelchair)]

/-! ## The wire decoder (`src/garmin/workout_parser.py`) -/

/-- `WorkoutParser._parse_step_type`.  The source looks up
`step_type_map[key or "other"]` in a map whose `"other"` entry is
commented out, so a falsy (missing/empty) or unrecognized `stepTypeKey`
raises `KeyError` instead of producing a fallback step type. -/
def parse_step_type (step_type_data : JValue) : Except PyError StepType :=
  let key : JValue :=
    match step_type_data.get? "stepTypeKey" with
    | none => .str "other"
    | some v => if v.falsy then .str "other" else v
  match key with
  | .str "warmup" => .ok .warmup
  | .str "cooldown" => .ok .cooldown
  | .str "interval" => .ok .interval
  | .str "recovery" => .ok .recovery
  | .str "rest" => .ok .rest
  | _ => .error .keyError

/-- `WorkoutParser._parse_end_condition`.  `endCondition` defaults to `{}`
when absent; an unknown or missing `conditionTypeKey` falls back to
`LAP_BUTTON` via `condition_map.get(..., LAP_BUTTON)`; `endConditionValue`
defaults to `0.0` and `displayable` to `True`. -/
def parse_end_condition (step_data : JValue) : Except PyError EndCondition :=
  match step_data.getD "endCondition" (.obj []) with
  | .obj ec_fields =>
      let end_condition_data : JValue := .obj ec_fields
      let condition_type : EndConditionType :=
        match end_condition_data.get? "conditionTypeKey" with
        | some (.str "lap.button") => .lap_button
        | some (.str "time") => .time
        | some (.str "distance") => .distance
        | some (.str "calories") => .calories
        | _ => .lap_button
      match step_data.getD "endConditionValue" (.num 0),
            end_condition_data.getD "displayable" (.bool true) with
      | .num value, .bool displayable =>
          .ok { condition_type := condition_type, value := value,
                displayable := displayable }
      | _, _ => .error .validationError
  | _ => .error .keyError

/-- `WorkoutParser._parse_intensity_target`.  NOTE the source swap in the
`pace.zone` branch: `upper = targetValueOne`, `lower = targetValueTwo` —
the opposite of what `WorkoutStep.to_dict` emits. -/
def parse_intensity_target (step_data : JValue) : Except PyError IntensityTarget :=
  match step_data.getD "targetType" (.obj []) with
  | .obj target_fields =>
      let target_data : JValue := .obj target_fields
      match target_data.get? "workoutTargetTypeKey" with
      | some (.str "no.target") => .ok .noTarget
      | some (.str "cadence") =>
          match step_data.getNonNull "targetValueOne",
                step_data.getNonNull "targetValueTwo" with
          | some lj, some uj =>
              match lj.asInt, uj.asInt with
              | some lower, some upper =>
                  match mkCadenceTarget lower upper with
                  | some t => .ok t
                  | none => .error .validationError
              | _, _ => .error .validationError
          | _, _ => .ok .noTarget
      | some (.str "heart.rate.zone") =>
          match step_data.getNonNull "zoneNumber" with
          | some zj =>
              match zj.asInt with
              | some zone => .ok (.heartRateZone zone none)
              | none => .error .validationError
          | none => .ok .noTarget
      | some (.str "pace.zone") =>
          match step_data.getNonNull "targetValueOne",
                step_data.getNonNull "targetValueTwo" with
          | some upperj, some lowerj =>
              match lowerj.asRat, upperj.asRat with
              | some lower, some upper =>
                  match mkPaceZoneTarget lower upper with
                  | some t => .ok t
                  | none => .error .validationError
              | _, _ => .error .validationError
          | _, _ => .ok .noTarget
      | _ => .ok .noTarget
  | _ => .ok .noTarget

/-- `WorkoutParser._parse_workout_step`: `stepOrder` defaults to `1`;
the three sub-parsers run in source order. -/
def parse_workout_step (step_data : JValue) : Except PyError WorkoutStep := do
  let step_order : ℤ ←
    match (step_data.getD "stepOrder" (.num 1)).asInt with
    | some n => .ok n
    | none => .error .validationError
  let step_type ← parse_step_type (step_data.getD "stepType" (.obj []))
  let end_condition ← parse_end_condition step_data
  let intensity ← parse_intensity_target step_data
  .ok { step_order := step_order, step_type := step_type,
        end_condition := end_condition, intensity := intensity }

/-- `WorkoutParser._parse_workout_segment`: keeps only entries whose
`type` equals `"ExecutableStepDTO"`; `segmentOrder` defaults to `1`. -/
def parse_workout_segment (segment_data : JValue) : Except PyError WorkoutSegment := do
  let segment_order : ℤ ←
    match (segment_data.getD "segmentOrder" (.num 1)).asInt with
    | some n => .ok n
    | none => .error .validationError
  match segment_data.getD "workoutSteps" (.arr []) with
  | .arr steps =>
      let executable := steps.filter (fun s =>
        match s.get? "type" with
        | some (.str t) => t == "ExecutableStepDTO"
        | _ => false)
      let workout_steps ← executable.mapM parse_workout_step
      .ok { segment_order := segment_order, workout_steps := workout_steps }
  | _ => .error .keyError

/-- `WorkoutParser.parse_workout`: `workoutName` defaults to
`"Untitled Workout"`, `trainingPlanId` to `None`. -/
def parse_workout (workout_json : JValue) : Except PyError RunWorkout := do
  let workout_name : String ←
    match workout_json.getD "workoutName" (.str "Untitled Workout") with
    | .str s => .ok s
    | _ => .error .validationError
  let training_plan_id : Option String ←
    match workout_json.getD "trainingPlanId" .null with
    | .null => .ok none
    | .str s => .ok (some s)
    | _ => .error .validationError
  match workout_json.getD "workoutSegments" (.arr []) with
  | .arr segs =>
      let workout_segments ← segs.mapM parse_workout_segment
      .ok { workout_name := workout_name, workout_segments := workout_segments,
            training_plan_id := training_plan_id }
  | _ => .error .keyError

/-! ## The `create_workouts` tool (`src/customclaudeclient/create_workout_tool.py`) -/

/-- One step of the `create_workouts` tool payload (fields of the tool's
input schema; optional fields absent when the model omitted them). -/
structure StepData where
  step_type : String
  duration_minutes : ℚ
  target_type : String
  zone_number : Option ℤ := none
  target_lower_bound : Option ℚ := none
  target_upper_bound : Option ℚ := none
deriving DecidableEq, Repr

/-- One workout of the `create_workouts` tool payload. -/
structure WorkoutData where
  workout_name : String
  steps : List StepData
deriving DecidableEq, Repr

/-- The unit-conversion constant of `_construct_run_workout`:
`MPH * 0.44704 = m/s`, the decimal literal taken exactly. -/
def mphToMps : ℚ := 44704 / 100000

/-- The intensity-target construction of `_construct_run_workout`:
dispatch on `target_type`; missing required fields raise `KeyError`
(`step_data["..."]`); cadence bounds go through pydantic's int coercion;
the `pace_range` branch converts MPH to m/s and swaps the bounds
(`PaceZoneTarget(upper_bound=lower_bound_ms, lower_bound=upper_bound_ms)`);
any other `target_type` falls back to `NoTarget`. -/
def construct_intensity (sd : StepData) : Except PyError IntensityTarget :=
  if sd.target_type == "no_target" then
    .ok .noTarget
  else if sd.target_type == "heart_rate_zone" then
    match sd.zone_number with
    | some z =>
        match mkHeartRateZoneTarget z with
        | some t => .ok t
        | none => .error .validationError
    | none => .error .keyError
  else if sd.target_type == "cadence_range" then
    match sd.target_lower_bound, sd.target_upper_bound with
    | some l, some u =>
        if l.den == 1 && u.den == 1 then
          match mkCadenceTarget l.num u.num with
          | some t => .ok t
          | none => .error .validationError
        else .error .validationError
    | _, _ => .error .keyError
  else if sd.target_type == "pace_range" then
    match sd.target_lower_bound, sd.target_upper_bound with
    | some lb, some ub =>
        let lower_bound_ms := lb * mphToMps
        let upper_bound_ms := ub * mphToMps
        match mkPaceZoneTarget upper_bound_ms lower_bound_ms with
        | some t => .ok t
        | none => .error .validationError
    | _, _ => .error .keyError
  else
    .ok .noTarget

/-- `StepType[step_data["step_type"].upper()]`: enum member lookup by
name; an unknown name raises `KeyError`. -/
def stepTypeOfName (s : String) : Except PyError StepType :=
  match strUpper s with
  | "WARMUP" => .ok .warmup
  | "COOLDOWN" => .ok .cooldown
  | "INTERVAL" => .ok .interval
  | "RECOVERY" => .ok .recovery
  | "REST" => .ok .rest
  | "OTHER" => .ok .other
  | _ => .error .keyError

/-- The step loop of `_construct_run_workout`, enumerating from 1:
each step gets a TIME end condition of `duration_minutes * 60` seconds. -/
def construct_steps : ℤ → List StepData → Except PyError (List WorkoutStep)
  | _, [] => .ok []
  | i, sd :: rest => do
      let intensity ← construct_intensity sd
      let step_type ← stepTypeOfName sd.step_type
      let step : WorkoutStep :=
        { step_order := i, step_type := step_type,
          end_condition := { condition_type := .time,
                             value := sd.duration_minutes * 60 },
          intensity := intensity }
      let rest' ← construct_steps (i + 1) rest
      .ok (step :: rest')

/-- `_construct_run_workout`: one running segment (order 1) holding all
steps. -/
def construct_run_workout (wd : WorkoutData) : Except PyError RunWorkout := do
  let steps ← construct_steps 1 wd.steps
  .ok { workout_name := wd.workout_name,
        workout_segments := [{ segment_order := 1, workout_steps := steps }] }

/-! ## The workout registry and the tool handler -/

/-- The registry `stored_workouts : Dict[str, RunWorkout]`, modelled as an
insertion-ordered association list (Python dicts preserve insertion
order). -/
abbrev Registry := List (String × RunWorkout)

/-- `name in stored_workouts`. -/
def Registry.containsName (reg : Registry) (n : String) : Bool :=
  reg.any (fun p => p.1 == n)

/-- `list(stored_workouts.values())`. -/
def Registry.values (reg : Registry) : List RunWorkout :=
  reg.map (·.2)

/-- The de-duplication loop of `handle_create_workouts_tool`: walks the
candidates in order; a candidate whose name is already stored goes to
`duplicate_names`, otherwise it is appended to `valid_workouts` and
stored.  Returns `(registry, valid_workouts, duplicate_names)`. -/
def insert_batch : List RunWorkout → Registry →
    Registry × List RunWorkout × List String
  | [], reg => (reg, [], [])
  | w :: ws, reg =>
      if reg.containsName w.workout_name then
        let r := insert_batch ws reg
        (r.1, r.2.1, w.workout_name :: r.2.2)
      else
        let r := insert_batch ws (reg ++ [(w.workout_name, w)])
        (r.1, w :: r.2.1, r.2.2)

/-- `", ".join(names)`. -/
def joinComma : List String → String
  | [] => ""
  | [a] => a
  | a :: rest => a ++ ", " ++ joinComma rest

/-- The error-content prefix of the duplicate branch. -/
def duplicateErrorHeader : String :=
  "Error: Workout names must be unique. The following names already exist: "

/-- The tool-result record returned by a tool handler.  The source's
success branch omits the `is_error` key; consumers read it with a `False`
default, so it is modelled as `false`. -/
structure ToolResult where
  tool_use_id : String
  content : String
  is_error : Bool
  workouts : List RunWorkout
deriving DecidableEq, Repr

/-- Rendering of an accepted workout in the success content.  The source
interpolates Python's default object rendering, whose exact text carries
no design content; only the workout's identity matters to the claims, so
the rendering is abbreviated to the workout name followed by the
source-appended newline. -/
def RunWorkout.render (w : RunWorkout) : String := w.workout_name ++ "\n"

/-- Python's `str` of a list of strings as used by the success branch
(`str([str(w) + "\n" for w in valid_workouts])`), with `RunWorkout.render`
standing in for each element's rendering. -/
def pyListStr (items : List String) : String :=
  "[" ++ joinComma (items.map (fun s => "'" ++ s ++ "'")) ++ "]"

/-- The result-building tail of `handle_create_workouts_tool`: run the
de-duplication loop; when any duplicate exists the result is an error
naming all duplicate names, with an empty `workouts` list, otherwise the
result lists the accepted workouts. -/
def handle_insert (tool_use_id : String) (candidates : List RunWorkout)
    (stored : Registry) : Registry × ToolResult :=
  let r := insert_batch candidates stored
  if r.2.2.isEmpty then
    (r.1,
      { tool_use_id := tool_use_id,
        content := pyListStr (r.2.1.map RunWorkout.render),
        is_error := false, workouts := r.2.1 })
  else
    (r.1,
      { tool_use_id := tool_use_id,
        content := duplicateErrorHeader ++ joinComma r.2.2,
        is_error := true, workouts := [] })

/-- `handle_create_workouts_tool` proper: construction of every candidate
first (a construction exception propagates before any insertion), then
the de-duplication/insertion loop. -/
def handle_create_workouts_tool (tool_use_id : String)
    (input_workouts : List WorkoutData) (stored : Registry) :
    Except PyError (Registry × ToolResult) :=
  match input_workouts.mapM construct_run_workout with
  | .error e => .error e
  | .ok candidates => .ok (handle_insert tool_use_id candidates stored)

/-! ## The conversation orchestrator (`src/customclaudeclient/client.py`) -/

/-- Contiguous-substring test on character lists. -/
def listContains : List Char → List Char → Bool
  | s, pat =>
      match s with
      | [] => pat.isEmpty
      | _ :: t => pat.isPrefixOf s || listContains t pat

/-- Python's `pat in s` substring test. -/
def strContains (s pat : String) : Bool :=
  listContains s.toList pat.toList

/-- The stock continuation phrases of `_should_continue_conversation`. -/
def continuation_indicators : List String :=
  ["I'll continue", "I'll finish", "Let me continue", "I'll provide",
   "Next,", "Week 1:", "continuing with", "moving on to", "Part 2", "Part 3"]

/-- `Claude._should_continue_conversation`: signal continuation when the
text mentions `"Week 1"` but neither `"Week 2"` nor `"Week 3"`, or when
any stock phrase occurs case-insensitively. -/
def should_continue (response : String) : Bool :=
  if strContains response "Week 1" && !strContains response "Week 2"
      && !strContains response "Week 3" then
    true
  else
    continuation_indicators.any (fun ind =>
      strContains (strLower response) (strLower ind))

/-- A tool invocation emitted by the language-model collaborator.  Only
`create_workouts` mutates the registry; the retrieve tools are read-only
and a name absent from the dispatch table is skipped. -/
inductive ToolUse where
  | createWorkouts (id : String) (workouts : List WorkoutData)
  | retrieveTool (id : String)
  | unknownTool (id : String)
deriving DecidableEq, Repr

/-- One response of the language-model collaborator: its free text, its
tool invocations in emission order, and whether `stop_reason` was
`"tool_use"`. -/
structure ModelResponse where
  text : String
  tool_uses : List ToolUse
  stop_tool_use : Bool
deriving DecidableEq, Repr

/-- Sequential execution of a round's tool invocations against the
registry (`Claude.chat`, second pass).  A handler exception (possible
only on `create_workouts` construction) propagates out of `chat`,
modelled as `none`. -/
def runToolUses : List ToolUse → Registry → Option Registry
  | [], reg => some reg
  | tu :: rest, reg =>
      match tu with
      | .createWorkouts id ws =>
          match handle_create_workouts_tool id ws reg with
          | .ok (reg', _) => runToolUses rest reg'
          | .error _ => none
      | .retrieveTool _ => runToolUses rest reg
      | .unknownTool _ => runToolUses rest reg

/-- The `while True` loop of `Claude.chat`, driven by a script of model
responses: accumulate each response's text, execute its tool invocations,
and stop as soon as `stop_reason != "tool_use"`, returning the
accumulated text, `list(self.workouts.values())`, the new registry, and
the unread rest of the script.  An exhausted script (the collaborator
never stops requesting tools) or a propagated handler exception yields
`none`. -/
def chatLoop : List ModelResponse → Registry → String →
    Option (String × List RunWorkout × Registry × List ModelResponse)
  | [], _, _ => none
  | r :: rest, reg, acc =>
      let acc' := acc ++ r.text
      match runToolUses r.tool_uses reg with
      | none => none
      | some reg' =>
          if r.stop_tool_use then
            chatLoop rest reg' acc'
          else
            some (acc', reg'.values, reg', rest)

/-- `Claude.chat` for one user turn. -/
def chat (script : List ModelResponse) (reg : Registry) :
    Option (String × List RunWorkout × Registry × List ModelResponse) :=
  chatLoop script reg ""

/-- The final summary of `Claude.chat_complete`:
`"Created N workouts:\n1. name\n…"`, stripped. -/
def mkSummary (all_workouts : List RunWorkout) : String :=
  let numbered := (all_workouts.enumFrom 1).map
    (fun p => toString p.1 ++ ". " ++ p.2.workout_name ++ "\n")
  strStrip (("Created " ++ toString all_workouts.length ++ " workouts:\n")
    ++ String.join numbered)

/-- The auto-continuation loop of `Claude.chat_complete`: run a turn,
extend the accumulated workouts with the turn's returned list, and run
another turn while the continuation heuristic fires.  The source loop is
unbounded; `fuel` bounds the model, with `none` when it runs out.  The
result is the summary (or the stripped concatenated text) and the
accumulated workouts (`none` when no workout was produced, as in the
source's `(full_response.strip(), None)` branch). -/
def chatCompleteLoop : ℕ → List ModelResponse → Registry →
    List RunWorkout → String → Option (String × Option (List RunWorkout))
  | 0, _, _, _, _ => none
  | fuel + 1, script, reg, all_workouts, full_response =>
      match chat script reg with
      | none => none
      | some (response, workouts, reg', rest) =>
          let full_response' := full_response ++ response ++ " "
          let all_workouts' := all_workouts ++ workouts
          if should_continue response then
            chatCompleteLoop fuel rest reg' all_workouts' full_response'
          else if all_workouts'.isEmpty then
            some (strStrip full_response', none)
          else
            some (mkSummary all_workouts', some all_workouts')

/-- `Claude.chat_complete`, starting from an empty accumulator. -/
def chat_complete (fuel : ℕ) (script : List ModelResponse) (reg : Registry) :
    Option (String × Option (List RunWorkout)) :=
  chatCompleteLoop fuel script reg [] ""

/-! ## Derived definitions used by the claims -/

/-- Keys of the registry are pairwise distinct. -/
def Registry.keysNodup (reg : Registry) : Prop :=
  (reg.map Prod.fst).Nodup

/-- One `create_workouts` tool call as the orchestrator performs it: on a
propagated construction exception the registry is left unchanged (the
exception escapes before any insertion). -/
def callBatch (reg : Registry) (b : List WorkoutData) : Registry :=
  match handle_create_workouts_tool "tool_call" b reg with
  | .ok (reg', _) => reg'
  | .error _ => reg

/-- A session-long sequence of `create_workouts` calls. -/
def applyBatches : Registry → List (List WorkoutData) → Registry
  | reg, [] => reg
  | reg, b :: bs => applyBatches (callBatch reg b) bs

/-- Whether an optional `conditionTypeKey` wire value is one of the four
keys of the parser's `condition_map`. -/
def conditionKeyIsKnown : Option JValue → Bool
  | some (.str s) =>
      s == "lap.button" || s == "time" || s == "distance" || s == "calories"
  | _ => false

/-- A wire step map with the end-condition-relevant fields chosen freely:
an optional `endCondition.conditionTypeKey`, an optional
`endCondition.displayable`, and an optional top-level
`endConditionValue`. -/
def endCondStep (ckey : Option JValue) (v : Option ℚ) (d : Option Bool) : JValue :=
  .obj (optField "endCondition"
          (some (.obj (optField "conditionTypeKey" ckey
                       ++ optField "displayable" (d.map .bool))))
        ++ optField "endConditionValue" (v.map .num))

/-- A `create_workouts` step payload carrying a `pace_range` target with
the given MPH bounds. -/
def paceStep (lb ub : ℚ) : StepData :=
  { step_type := "interval", duration_minutes := 10,
    target_type := "pace_range", target_lower_bound := some lb,
    target_upper_bound := some ub }

/-! ### Concrete fixtures -/

/-- A valid pace-zone target: `lower_bound = 3.2` m/s (faster) above
`upper_bound = 2.6` m/s (slower). -/
def paceT0 : IntensityTarget := .paceZone (16/5) (13/5) none

/-- A single interval step carrying `paceT0` (10-minute time end
condition). -/
def step0 : WorkoutStep :=
  { step_order := 1, step_type := .interval,
    end_condition := { condition_type := .time, value := 600 },
    intensity := paceT0 }

/-- A valid one-segment workout whose only step targets a pace zone. -/
def w0 : RunWorkout :=
  { workout_name := "Tempo Run",
    workout_segments := [{ segment_order := 1, workout_steps := [step0] }] }

/-- A valid one-segment workout with a cadence target (no pace target and
no OTHER step). -/
def w1 : RunWorkout :=
  { workout_name := "Strides",
    workout_segments := [{ segment_order := 1, workout_steps :=
      [{ step_order := 1, step_type := .interval,
         end_condition := { condition_type := .time, value := 300 },
         intensity := .cadence 160 180 none }] }] }

/-- Tool payload for a workout named `"A"` (no steps needed for the
registry claims). -/
def wdA : WorkoutData := { workout_name := "A", steps := [] }

/-- Tool payload for a workout named `"B"`. -/
def wdB : WorkoutData := { workout_name := "B", steps := [] }

/-- The workout constructed from `wdA`. -/
def wA : RunWorkout :=
  { workout_name := "A",
    workout_segments := [{ segment_order := 1, workout_steps := [] }] }

/-- The workout constructed from `wdB`. -/
def wB : RunWorkout :=
  { workout_name := "B",
    workout_segments := [{ segment_order := 1, workout_steps := [] }] }

/-- The registry after one call inserting `wdA`. -/
def reg0c4 : Registry := callBatch [] [wdA]

/-- The tool result of the batch `[A, B, A]` against `reg0c4` (where `A`
pre-exists). -/
def c4_result : ToolResult :=
  match handle_create_workouts_tool "t2" [wdA, wdB, wdA] reg0c4 with
  | .ok (_, res) => res
  | .error _ => { tool_use_id := "", content := "", is_error := false,
                  workouts := [] }

/-- Tool payload creating one `"Easy Run"` workout (30-minute interval,
no target). -/
def wdW1 : WorkoutData :=
  { workout_name := "Easy Run",
    steps := [{ step_type := "interval", duration_minutes := 30,
                target_type := "no_target" }] }

/-- The workout constructed from `wdW1`. -/
def wEasy : RunWorkout :=
  { workout_name := "Easy Run",
    workout_segments := [{ segment_order := 1, workout_steps :=
      [{ step_order := 1, step_type := .interval,
         end_condition := { condition_type := .time, value := 1800 },
         intensity := .noTarget }] }] }

/-- Final scripted model response: plain text, no tool use, no
continuation signal. -/
def r3 : ModelResponse :=
  { text := "Training plan complete.", tool_uses := [], stop_tool_use := false }

/-- A model-response script: round 1 creates `"Easy Run"` and keeps
requesting tools, round 2 ends the first turn with the text `"Week 1"`
(triggering the continuation heuristic), round 3 is the second turn's
only response and creates nothing. -/
def scriptCE : List ModelResponse :=
  [ { text := "", tool_uses := [.createWorkouts "t1" [wdW1]],
      stop_tool_use := true },
    { text := "Week 1", tool_uses := [], stop_tool_use := false },
    r3 ]

/-! ## Helper lemmas -/

theorem containsName_append (reg ext : Registry) (n : String) :
    (reg ++ ext).containsName n = (reg.containsName n || ext.containsName n) := by
  simp [Registry.containsName, List.any_append]

theorem containsName_eq_false_iff (reg : Registry) (n : String) :
    reg.containsName n = false ↔ n ∉ reg.map Prod.fst := by
  rw [← Bool.not_eq_true]
  simp [Registry.containsName, List.any_eq_true, List.mem_map]

theorem insert_batch_grows (ws : List RunWorkout) (reg : Registry) :
    reg <+: (insert_batch ws reg).1 := by
  induction ws generalizing reg with
  | nil => simp [insert_batch]
  | cons w ws ih =>
      simp only [insert_batch]
      split
      · exact ih reg
      · exact (List.prefix_append reg _).trans (ih _)

theorem containsName_of_grows {reg reg' : Registry} {n : String}
    (h : reg <+: reg') (hc : reg.containsName n = true) :
    reg'.containsName n = true := by
  obtain ⟨t, rfl⟩ := h
  rw [containsName_append, hc, Bool.true_or]

theorem insert_batch_keysNodup (ws : List RunWorkout) (reg : Registry)
    (h : reg.keysNodup) : (insert_batch ws reg).1.keysNodup := by
  induction ws generalizing reg with
  | nil => simpa [insert_batch] using h
  | cons w ws ih =>
      simp only [insert_batch]
      split
      · exact ih reg h
      · rename_i hc
        refine ih _ ?_
        have hn : w.workout_name ∉ reg.map Prod.fst :=
          (containsName_eq_false_iff reg _).1 (by simpa using hc)
        unfold Registry.keysNodup at h ⊢
        rw [List.map_append, List.map_cons, List.map_nil]
        exact List.Nodup.append h (List.nodup_singleton _)
          (by simpa [List.disjoint_singleton] using hn)

theorem insert_batch_dup_reported (ws : List RunWorkout) (reg : Registry) :
    ∀ w ∈ ws, reg.containsName w.workout_name = true →
      w.workout_name ∈ (insert_batch ws reg).2.2 := by
  induction ws generalizing reg with
  | nil => intro w hw; cases hw
  | cons w' ws ih =>
      intro w hw hc
      rcases List.mem_cons.1 hw with rfl | hmem
      · simp only [insert_batch, hc, if_true]
        exact List.mem_cons_self _ _
      · simp only [insert_batch]
        split
        · exact List.mem_cons_of_mem _ (ih reg w hmem hc)
        · exact ih _ w hmem
            (containsName_of_grows (List.prefix_append reg _) hc)

theorem insert_batch_fst_eq (ws : List RunWorkout) (reg : Registry) :
    (insert_batch ws reg).1 =
      reg ++ ((insert_batch ws reg).2.1.map (fun w => (w.workout_name, w))) := by
  induction ws generalizing reg with
  | nil => simp [insert_batch]
  | cons w ws ih =>
      simp only [insert_batch]
      split
      · exact ih reg
      · simpa [List.append_assoc] using ih (reg ++ [(w.workout_name, w)])

theorem insert_batch_inserted (ws : List RunWorkout) (reg : Registry) :
    ∀ w ∈ ws, (insert_batch ws reg).1.containsName w.workout_name = true := by
  induction ws generalizing reg with
  | nil => intro w hw; cases hw
  | cons w' ws ih =>
      intro w hw
      rcases List.mem_cons.1 hw with rfl | hmem
      · simp only [insert_batch]
        split
        · rename_i hc
          exact containsName_of_grows (insert_batch_grows ws reg) hc
        · refine containsName_of_grows (insert_batch_grows ws _) ?_
          rw [containsName_append]
          simp [Registry.containsName]
      · simp only [insert_batch]
        split
        · exact ih reg w hmem
        · exact ih _ w hmem

theorem joinComma_mem (l : List String) (a : String) (h : a ∈ l) :
    ∃ p q, joinComma l = p ++ a ++ q := by
  induction l with
  | nil => cases h
  | cons b rest ih =>
      rcases List.mem_cons.1 h with rfl | hmem
      · cases rest with
        | nil => exact ⟨"", "", by simp [joinComma]⟩
        | cons c cs =>
            refine ⟨"", ", " ++ joinComma (c :: cs), ?_⟩
            simp [joinComma, String.append_assoc]
      · cases rest with
        | nil => cases hmem
        | cons c cs =>
            obtain ⟨p, q, hp⟩ := ih hmem
            refine ⟨b ++ ", " ++ p, q, ?_⟩
            show b ++ ", " ++ joinComma (c :: cs) = b ++ ", " ++ p ++ a ++ q
            rw [hp]
            simp [String.append_assoc]

theorem handle_ok_spec (id : String) (b : List WorkoutData)
    (cs : List RunWorkout) (reg : Registry)
    (h : b.mapM construct_run_workout = .ok cs) :
    handle_create_workouts_tool id b reg = .ok (handle_insert id cs reg) := by
  unfold handle_create_workouts_tool
  rw [h]

theorem handle_insert_fst (id : String) (cs : List RunWorkout) (reg : Registry) :
    (handle_insert id cs reg).1 = (insert_batch cs reg).1 := by
  unfold handle_insert
  by_cases h : (insert_batch cs reg).2.2.isEmpty <;> simp [h]

theorem handle_ok_exists (id : String) (b : List WorkoutData) (reg reg' : Registry)
    (res : ToolResult)
    (h : handle_create_workouts_tool id b reg = .ok (reg', res)) :
    ∃ cs, b.mapM construct_run_workout = .ok cs ∧
      (reg', res) = handle_insert id cs reg := by
  unfold handle_create_workouts_tool at h
  cases hm : b.mapM construct_run_workout with
  | error e => rw [hm] at h; cases h
  | ok cs =>
      rw [hm] at h
      exact ⟨cs, rfl, (Except.ok.inj h).symm⟩

theorem callBatch_grows (reg : Registry) (b : List WorkoutData) :
    reg <+: callBatch reg b := by
  unfold callBatch
  cases hh : handle_create_workouts_tool "tool_call" b reg with
  | error e => exact List.prefix_refl _
  | ok pr =>
      obtain ⟨cs, _, hr⟩ := handle_ok_exists _ _ _ pr.1 pr.2
        (by rw [hh])
      have : pr.1 = (insert_batch cs reg).1 := by
        rw [congrArg Prod.fst hr, handle_insert_fst]
      simpa [this] using insert_batch_grows cs reg

theorem callBatch_keysNodup (reg : Registry) (b : List WorkoutData)
    (h : reg.keysNodup) : (callBatch reg b).keysNodup := by
  unfold callBatch
  cases hh : handle_create_workouts_tool "tool_call" b reg with
  | error e => exact h
  | ok pr =>
      obtain ⟨cs, _, hr⟩ := handle_ok_exists _ _ _ pr.1 pr.2
        (by rw [hh])
      have : pr.1 = (insert_batch cs reg).1 := by
        rw [congrArg Prod.fst hr, handle_insert_fst]
      simpa [this] using insert_batch_keysNodup cs reg h

theorem applyBatches_append (reg : Registry) (bs cs : List (List WorkoutData)) :
    applyBatches reg (bs ++ cs) = applyBatches (applyBatches reg bs) cs := by
  induction bs generalizing reg with
  | nil => rfl
  | cons b bs ih => simp [applyBatches, ih]

theorem applyBatches_grows (reg : Registry) (bs : List (List WorkoutData)) :
    reg <+: applyBatches reg bs := by
  induction bs generalizing reg with
  | nil => exact List.prefix_refl _
  | cons b bs ih => exact (callBatch_grows reg b).trans (ih _)

theorem applyBatches_keysNodup (reg : Registry) (bs : List (List WorkoutData))
    (h : reg.keysNodup) : (applyBatches reg bs).keysNodup := by
  induction bs generalizing reg with
  | nil => exact h
  | cons b bs ih => exact ih _ (callBatch_keysNodup reg b h)

theorem runToolUses_grows (tus : List ToolUse) (reg reg' : Registry)
    (h : runToolUses tus reg = some reg') : reg <+: reg' := by
  induction tus generalizing reg with
  | nil =>
      cases h
      exact List.prefix_refl _
  | cons tu rest ih =>
      unfold runToolUses at h
      cases tu with
      | createWorkouts id ws =>
          dsimp only at h
          cases hh : handle_create_workouts_tool id ws reg with
          | error e =>
              rw [hh] at h
              cases h
          | ok pr =>
              obtain ⟨r1, res⟩ := pr
              rw [hh] at h
              dsimp only at h
              obtain ⟨cs, _, hr⟩ := handle_ok_exists _ _ _ r1 res hh
              have hfst : r1 = (insert_batch cs reg).1 := by
                simpa [handle_insert_fst] using congrArg Prod.fst hr
              have h1 : reg <+: r1 := by
                rw [hfst]
                exact insert_batch_grows cs reg
              exact h1.trans (ih r1 h)
      | retrieveTool id => exact ih reg h
      | unknownTool id => exact ih reg h

theorem chatLoop_spec (script : List ModelResponse) :
    ∀ (reg : Registry) (acc t : String) (ws : List RunWorkout)
      (reg' : Registry) (rest : List ModelResponse),
      chatLoop script reg acc = some (t, ws, reg', rest) →
        ws = reg'.values ∧ reg <+: reg' := by
  induction script with
  | nil => intro reg acc t ws reg' rest h; cases h
  | cons r rest' ih =>
      intro reg acc t ws reg' rest h
      unfold chatLoop at h
      cases hr : runToolUses r.tool_uses reg with
      | none => rw [hr] at h; cases h
      | some reg1 =>
          rw [hr] at h
          dsimp only at h
          by_cases hs : r.stop_tool_use
          · rw [if_pos hs] at h
            obtain ⟨h1, h2⟩ := ih reg1 _ t ws reg' rest h
            exact ⟨h1, (runToolUses_grows _ _ _ hr).trans h2⟩
          · rw [if_neg hs] at h
            simp only [Option.some.injEq, Prod.mk.injEq] at h
            obtain ⟨-, hws, hreg, -⟩ := h
            subst hreg
            subst hws
            exact ⟨rfl, runToolUses_grows _ _ _ hr⟩

/-! ## Claims -/

/-- C1: the round-trip contract `decode(encode(w)) = w` fails on the code.
`w0` is a valid workout (its pace-zone target `paceT0` with
`lower_bound = 3.2 > upper_bound = 2.6` m/s passes construction), yet
decoding its encoded wire map raises a ValidationError: the decoder reads
`targetValueOne` as the upper and `targetValueTwo` as the lower pace
bound, the inverse of the encoder's convention, so the swapped bounds
violate the pace-zone inversion invariant.  A pace-free workout `w1`
round-trips unchanged, isolating the failure to the pace branch. -/
theorem c1_roundtrip_fails_on_pace :
    mkPaceZoneTarget (16/5) (13/5) = some paceT0 ∧
    parse_workout w0.to_dict = .error .validationError ∧
    parse_workout w1.to_dict = .ok w1 := by
  refine ⟨?_, ?_, ?_⟩ <;> with_unfolding_all decide

/-- C2: decoding a step with an absent or unrecognized `stepTypeKey`
raises `KeyError` (the fallback entry of `step_type_map` is commented
out), even for the key `"other"` that the encoder itself emits — contrary
to the never-raise contract; the other two fallbacks of the claim do
hold: an unknown `targetType` decodes to NoTarget and a missing
`endConditionValue` decodes to `0.0`. -/
theorem c2_step_type_fallback_raises :
    parse_step_type (.obj [("stepTypeKey", .str "run.fast")]) = .error .keyError ∧
    parse_step_type (.obj []) = .error .keyError ∧
    parse_step_type (.obj [("stepTypeKey", .str "other")]) = .error .keyError ∧
    parse_intensity_target
      (.obj [("targetType", .obj [("workoutTargetTypeKey", .str "power.zone")])]) =
      .ok .noTarget ∧
    parse_intensity_target (.obj []) = .ok .noTarget ∧
    parse_end_condition (.obj []) =
      .ok { condition_type := .lap_button, value := 0, displayable := true } := by
  refine ⟨?_, ?_, ?_, ?_, ?_, ?_⟩ <;> with_unfolding_all decide

/-- C3: across any sequence of `create_workouts` calls starting from the
empty registry, registry keys stay pairwise distinct; the registry only
grows (earlier entries are never overwritten or removed — each state is a
prefix of every later state); and every candidate whose name is already
present is named in the error content of that call's tool result. -/
theorem c3_registry_invariants :
    (∀ bs : List (List WorkoutData), (applyBatches [] bs).keysNodup) ∧
    (∀ bs extra : List (List WorkoutData),
       applyBatches [] bs <+: applyBatches [] (bs ++ extra)) ∧
    (∀ (bs : List (List WorkoutData)) (b : List WorkoutData)
       (reg' : Registry) (res : ToolResult) (cs : List RunWorkout),
       handle_create_workouts_tool "tc" b (applyBatches [] bs) = .ok (reg', res) →
       b.mapM construct_run_workout = .ok cs →
       ∀ w ∈ cs, (applyBatches [] bs).containsName w.workout_name = true →
         res.is_error = true ∧
         ∃ p q, res.content = p ++ w.workout_name ++ q) := by
  refine ⟨?_, ?_, ?_⟩
  · intro bs
    exact applyBatches_keysNodup [] bs (by simp [Registry.keysNodup])
  · intro bs extra
    rw [applyBatches_append]
    exact applyBatches_grows _ extra
  · intro bs b reg' res cs hh hm w hw hc
    obtain ⟨cs', hm', hr⟩ := handle_ok_exists _ _ _ reg' res hh
    rw [hm] at hm'
    obtain rfl : cs = cs' := Except.ok.inj hm'
    have hdup : w.workout_name ∈ (insert_batch cs (applyBatches [] bs)).2.2 :=
      insert_batch_dup_reported cs _ w hw hc
    have hne : (insert_batch cs (applyBatches [] bs)).2.2.isEmpty = false := by
      cases hd : (insert_batch cs (applyBatches [] bs)).2.2 with
      | nil => rw [hd] at hdup; cases hdup
      | cons x xs => rfl
    have hres : res =
        { tool_use_id := "tc",
          content := duplicateErrorHeader ++
            joinComma (insert_batch cs (applyBatches [] bs)).2.2,
          is_error := true, workouts := [] } := by
      have h2 := congrArg Prod.snd hr
      simpa [handle_insert, hne] using h2
    rw [hres]
    refine ⟨rfl, ?_⟩
    obtain ⟨p, q, hpq⟩ := joinComma_mem _ _ hdup
    refine ⟨duplicateErrorHeader ++ p, q, ?_⟩
    rw [hpq]
    simp [String.append_assoc]

/-- The duplicate-error tool result of re-inserting `A`. -/
def c3dupResult : ToolResult :=
  { tool_use_id := "tc", content := duplicateErrorHeader ++ "A",
    is_error := true, workouts := [] }

/-- Witness for C3: the second call `[A]` against the registry already
holding `A` reports the duplicate name `A` inside an error result. -/
theorem c3_registry_invariants_witness :
    c3dupResult.is_error = true ∧
    ∃ p q, c3dupResult.content = p ++ wA.workout_name ++ q := by
  exact c3_registry_invariants.2.2 [[wdA]] [wdA] [("A", wA)] c3dupResult [wA]
    (by with_unfolding_all decide) (by with_unfolding_all decide) wA
    (by decide) (by with_unfolding_all decide)

/-- C4 counterexample: inserting `[A, B, A]` where `A` pre-exists does
insert `B` into the registry, but the returned tool result is the error
result with an EMPTY `workouts` list (not `accepted = [B]`) and the
duplicate name `A` listed once per duplicate candidate (`"A, A"`, not
once). -/
theorem c4_counterexample :
    construct_run_workout wdB = .ok wB ∧
    handle_create_workouts_tool "t2" [wdA, wdB, wdA] reg0c4 =
      .ok (reg0c4 ++ [("B", wB)], c4_result) ∧
    c4_result.workouts = [] ∧
    c4_result.workouts ≠ [wB] ∧
    c4_result.content = duplicateErrorHeader ++ "A, A" := by
  refine ⟨?_, ?_, ?_, ?_, ?_⟩ <;> with_unfolding_all decide

/-- C4 amended: the registry side has partial-success semantics — each
call appends exactly its accepted candidates, duplicate candidates are
reported (once per candidate) and never inserted, and every candidate's
name is present afterwards — but the RETURNED tool result exposes the
accepted list only when the batch had no duplicates; with any duplicate
the result is an error whose `workouts` list is empty and whose content
joins the duplicate names. -/
theorem c4_partial_success :
    (∀ (cs : List RunWorkout) (reg : Registry),
       (insert_batch cs reg).1 =
         reg ++ ((insert_batch cs reg).2.1.map (fun w => (w.workout_name, w)))) ∧
    (∀ (cs : List RunWorkout) (reg : Registry) (w : RunWorkout), w ∈ cs →
       reg.containsName w.workout_name = true →
         w.workout_name ∈ (insert_batch cs reg).2.2) ∧
    (∀ (cs : List RunWorkout) (reg : Registry) (w : RunWorkout), w ∈ cs →
       (insert_batch cs reg).1.containsName w.workout_name = true) ∧
    (∀ (id : String) (cs : List RunWorkout) (reg : Registry),
       (insert_batch cs reg).2.2 = [] →
         (handle_insert id cs reg).2.workouts = (insert_batch cs reg).2.1) ∧
    (∀ (id : String) (cs : List RunWorkout) (reg : Registry),
       (insert_batch cs reg).2.2 ≠ [] →
         (handle_insert id cs reg).2.workouts = [] ∧
         (handle_insert id cs reg).2.is_error = true ∧
         (handle_insert id cs reg).2.content =
           duplicateErrorHeader ++ joinComma (insert_batch cs reg).2.2) := by
  refine ⟨fun cs reg => insert_batch_fst_eq cs reg,
    fun cs reg w hw hc => insert_batch_dup_reported cs reg w hw hc,
    fun cs reg w hw => insert_batch_inserted cs reg w hw, ?_, ?_⟩
  · intro id cs reg h
    simp [handle_insert, h]
  · intro id cs reg h
    have hne : (insert_batch cs reg).2.2.isEmpty = false := by
      cases hd : (insert_batch cs reg).2.2 with
      | nil => exact absurd hd h
      | cons x xs => rfl
    refine ⟨?_, ?_, ?_⟩ <;> simp [handle_insert, hne]

/-- Witness for C4: the duplicate branch on `[A, B, A]` against a
registry holding `A`. -/
theorem c4_partial_success_witness :
    (handle_insert "t" [wA, wB, wA] [("A", wA)]).2.workouts = [] ∧
    (handle_insert "t" [wA, wB, wA] [("A", wA)]).2.is_error = true ∧
    (handle_insert "t" [wA, wB, wA] [("A", wA)]).2.content =
      duplicateErrorHeader ++ joinComma (insert_batch [wA, wB, wA] [("A", wA)]).2.2 := by
  exact c4_partial_success.2.2.2.2 "t" [wA, wB, wA] [("A", wA)]
    (by with_unfolding_all decide)

/-- C5 counterexample: `PaceZoneTarget(1, 1)` has `lower ≤ upper` (they
are equal), yet construction SUCCEEDS — the source raises only on the
strict inequality `lower < upper`, so the claimed raise-iff-`l ≤ u`
boundary is wrong at `l = u`. -/
theorem c5_counterexample :
    mkPaceZoneTarget 1 1 = some (.paceZone 1 1 none) ∧ (1 : ℚ) ≤ 1 := by
  exact ⟨by with_unfolding_all decide, le_refl 1⟩

/-- C5 amended: `CadenceTarget(l, u)` fails construction iff `l ≥ u`
(so `(180, 160)` raises and `(160, 180)` succeeds, as claimed), and
`PaceZoneTarget(l, u)` fails construction iff `l < u` — strict, not the
claimed `l ≤ u`. -/
theorem c5_bound_validation :
    (∀ l u : ℤ, mkCadenceTarget l u = none ↔ l ≥ u) ∧
    (∀ l u : ℚ, mkPaceZoneTarget l u = none ↔ l < u) ∧
    mkCadenceTarget 180 160 = none ∧
    mkCadenceTarget 160 180 = some (.cadence 160 180 none) := by
  refine ⟨?_, ?_, by decide, by decide⟩
  · intro l u
    unfold mkCadenceTarget
    split <;> simp_all
  · intro l u
    unfold mkPaceZoneTarget
    split <;> simp_all

/-- Witness for C5 amended: both failure directions at concrete bounds. -/
theorem c5_bound_validation_witness :
    mkCadenceTarget 170 150 = none ∧ mkPaceZoneTarget 2 3 = none := by
  exact ⟨(c5_bound_validation.1 170 150).2 (by norm_num),
         (c5_bound_validation.2.1 2 3).2 (by norm_num)⟩

/-- C6: the `pace_range` construction path multiplies each MPH bound by
`0.44704` and swaps the results, assigning the converted upper (slower)
input bound to `lower_bound` and the converted lower input bound to
`upper_bound`. -/
theorem c6_pace_conversion (lb ub : ℚ) (h : lb ≤ ub) :
    construct_intensity (paceStep lb ub) =
      .ok (.paceZone (ub * mphToMps) (lb * mphToMps) none) := by
  have hc : ¬ (ub * mphToMps < lb * mphToMps) := by
    rw [not_lt]
    exact mul_le_mul_of_nonneg_right h (by norm_num [mphToMps])
  simp [construct_intensity, paceStep, mkPaceZoneTarget, hc]

/-- Witness for C6: input bounds `(6.0, 7.0)` MPH yield
`lower_bound = 3.12928 ≈ 3.1293` and `upper_bound = 2.68224 ≈ 2.6822`
meters/second. -/
theorem c6_pace_conversion_witness :
    construct_intensity (paceStep 6 7) =
      .ok (.paceZone (312928/100000) (268224/100000) none) ∧
    |(312928 : ℚ)/100000 - 31293/10000| < 1/10000 ∧
    |(268224 : ℚ)/100000 - 26822/10000| < 1/10000 := by
  refine ⟨?_, by rw [abs_sub_lt_iff]; constructor <;> norm_num,
    by rw [abs_sub_lt_iff]; constructor <;> norm_num⟩
  rw [c6_pace_conversion 6 7 (by norm_num)]
  norm_num [mphToMps]

/-- C7 counterexample: with the script `scriptCE`, turn 1 creates
`"Easy Run"` and ends with the text `"Week 1"`; the heuristic continues;
turn 2 (`r3` only) creates nothing yet `chat` returns `[wEasy]` — a
workout created in an EARLIER turn — and `chat_complete` reports
"Created 2 workouts" for the single workout ever created, counting it
once per turn. -/
theorem c7_counterexample :
    chat scriptCE [] =
      some ("Week 1", [wEasy], [("Easy Run", wEasy)], [r3]) ∧
    chat [r3] [("Easy Run", wEasy)] =
      some ("Training plan complete.", [wEasy], [("Easy Run", wEasy)], []) ∧
    r3.tool_uses = [] ∧
    chat_complete 3 scriptCE [] =
      some ("Created 2 workouts:\n1. Easy Run\n2. Easy Run",
            some [wEasy, wEasy]) := by
  refine ⟨?_, ?_, rfl, ?_⟩ <;> with_unfolding_all decide

/-- C7 amended: a finished turn returns the values of the WHOLE session
registry — every workout created in earlier turns included — together
with the grown registry. -/
theorem c7_chat_returns_session_registry :
    ∀ (script : List ModelResponse) (reg : Registry) (t : String)
      (ws : List RunWorkout) (reg' : Registry) (rest : List ModelResponse),
      chat script reg = some (t, ws, reg', rest) →
        ws = reg'.values ∧ reg <+: reg' ∧ ∀ w ∈ reg.values, w ∈ ws := by
  intro script reg t ws reg' rest h
  obtain ⟨h1, h2⟩ := chatLoop_spec script reg "" t ws reg' rest h
  refine ⟨h1, h2, ?_⟩
  intro w hw
  subst h1
  obtain ⟨tail, rfl⟩ := h2
  rw [Registry.values, List.map_append]
  exact List.mem_append_left _ hw

/-- Witness for C7 amended: the second turn of the counterexample script
returns exactly the session registry's values. -/
theorem c7_chat_returns_session_registry_witness :
    [wEasy] = Registry.values [("Easy Run", wEasy)] ∧
    ([("Easy Run", wEasy)] : Registry) <+: [("Easy Run", wEasy)] ∧
    ∀ w ∈ Registry.values [("Easy Run", wEasy)], w ∈ [wEasy] := by
  exact c7_chat_returns_session_registry [r3] [("Easy Run", wEasy)]
    "Training plan complete." [wEasy] [("Easy Run", wEasy)] []
    (by with_unfolding_all decide)

/-- C8 counterexample: a text containing both `"Week 1"` and `"Week 2"`
still signals continuation, because `"Week 1:"` (with a colon) is also a
stock continuation phrase checked case-insensitively. -/
theorem c8_counterexample :
    strContains "Week 1: easy. Week 2: hard." "Week 1" = true ∧
    strContains "Week 1: easy. Week 2: hard." "Week 2" = true ∧
    should_continue "Week 1: easy. Week 2: hard." = true := by
  refine ⟨?_, ?_, ?_⟩ <;> with_unfolding_all decide

/-- C8 amended: text containing `"Week 1"` but neither `"Week 2"` nor
`"Week 3"` always signals continuation; text containing `"Week 1"` and
`"Week 2"` does NOT signal continuation PROVIDED it also contains none of
the stock continuation phrases case-insensitively. -/
theorem c8_continuation_heuristic :
    (∀ r : String, strContains r "Week 1" = true →
       strContains r "Week 2" = false → strContains r "Week 3" = false →
       should_continue r = true) ∧
    (∀ r : String, strContains r "Week 1" = true →
       strContains r "Week 2" = true →
       (∀ ind ∈ continuation_indicators,
         strContains (strLower r) (strLower ind) = false) →
       should_continue r = false) := by
  constructor
  · intro r h1 h2 h3
    unfold should_continue
    rw [h1, h2, h3]
    rfl
  · intro r h1 h2 hind
    unfold should_continue
    rw [h2]
    simp only [Bool.not_true, Bool.and_false, Bool.false_and, Bool.and_true,
      if_false, Bool.false_eq_true, if_neg]
    rw [List.any_eq_false]
    intro ind hin
    simp [hind ind hin]

/-- Witness for C8 amended: both directions at concrete texts. -/
theorem c8_continuation_heuristic_witness :
    should_continue "Week 1 easy" = true ∧
    should_continue "Week 1 and Week 2 plans" = false := by
  constructor
  · exact c8_continuation_heuristic.1 "Week 1 easy"
      (by with_unfolding_all decide) (by with_unfolding_all decide)
      (by with_unfolding_all decide)
  · exact c8_continuation_heuristic.2 "Week 1 and Week 2 plans"
      (by with_unfolding_all decide) (by with_unfolding_all decide)
      (by with_unfolding_all decide)

/-- C9 counterexample: `HeartRateZoneTarget(zone_number=6)` — outside the
documented 1–5 range — constructs successfully: the class has no bounds
validation at all. -/
theorem c9_counterexample :
    mkHeartRateZoneTarget 6 = some (.heartRateZone 6 none) ∧ ¬ (6 : ℤ) ≤ 5 := by
  exact ⟨rfl, by norm_num⟩

/-- C9 amended: `HeartRateZoneTarget` construction succeeds for EVERY
integer zone number; the 1–5 range is documentation only, never
enforced. -/
theorem c9_no_zone_validation :
    ∀ z : ℤ, mkHeartRateZoneTarget z = some (.heartRateZone z none) :=
  fun _ => rfl

/-- C10: decoding a step whose `endCondition.conditionTypeKey` is missing
or not one of the four known keys silently falls back to a `lap_button`
end condition, with the value taken from `endConditionValue` (default
`0.0`) and `displayable` from the map (default `True`), without raising
and without any dedicated unknown marker. -/
theorem c10_unknown_end_condition_fallback (ckey : Option JValue) (v : Option ℚ)
    (d : Option Bool) (hk : conditionKeyIsKnown ckey = false) :
    parse_end_condition (endCondStep ckey v d) =
      .ok { condition_type := .lap_button, value := v.getD 0,
            displayable := d.getD true } := by
  rcases ckey with _ | k
  · rcases v with _ | q <;> rcases d with _ | b <;>
      simp [parse_end_condition, endCondStep, optField, JValue.getD, JValue.get?]
  · rcases k with _ | b' | q' | s | xs | fs <;>
      rcases v with _ | q <;> rcases d with _ | b <;>
      simp_all [conditionKeyIsKnown, parse_end_condition, endCondStep, optField,
        JValue.getD, JValue.get?]

/-- Witness for C10: an unknown key `"iterations"` with no value and no
displayable flag decodes to the default `lap_button` end condition. -/
theorem c10_unknown_end_condition_fallback_witness :
    parse_end_condition (endCondStep (some (.str "iterations")) none none) =
      .ok { condition_type := .lap_button, value := 0, displayable := true } := by
  exact c10_unknown_end_condition_fallback (some (.str "iterations")) none none
    (by decide)
